import Mathlib

/-!
Verification of the webrtc voice-call client's session orchestration core:
quality scoring (src/metrics.rs), the connection monitor (src/connection.rs),
the signaling message protocol (src/signaling.rs), room membership
(src/room/state.rs), and the orchestrator / reconnection logic (src/main.rs).
All definitions are shallow embeddings of the corresponding Rust items.
-/

namespace WebRTCClient

/-! ## Quality metrics (src/metrics.rs) -/

/-- `ConnectionQuality` from src/metrics.rs. The Rust floats are embedded as
rationals: `calculate_quality_score` only compares them against literal
thresholds and never does float arithmetic, so the embedding is exact. -/
structure ConnectionQuality where
  round_trip_time : ℚ
  jitter : ℚ
  packet_loss_rate : ℚ
  audio_level : ℚ
  bitrate : ℚ
  quality_score : ℕ
  deriving DecidableEq, Repr

/-- The `rtt_score` band of `calculate_quality_score`. -/
def rttScore (rtt : ℚ) : ℕ :=
  if rtt < 150 then 40 else if rtt < 300 then 30 else 20

/-- The `jitter_score` band of `calculate_quality_score`. -/
def jitterScore (j : ℚ) : ℕ :=
  if j < 30 then 20 else if j < 50 then 15 else 10

/-- The `loss_score` band of `calculate_quality_score`. -/
def lossScore (loss : ℚ) : ℕ :=
  if loss < 1 then 40 else if loss < 3 then 30 else if loss < 5 then 20 else 10

/-- `ConnectionQuality::calculate_quality_score` (src/metrics.rs:36-51):
sets `quality_score` to the sum of the three band scores. -/
def calculate_quality_score (q : ConnectionQuality) : ConnectionQuality :=
  { q with quality_score :=
      rttScore q.round_trip_time + jitterScore q.jitter + lossScore q.packet_loss_rate }

/-! ## Connection monitor (src/connection.rs) -/

/-- `ConnectionState` from src/connection.rs. -/
inductive ConnectionState where
  | Disconnected
  | Connecting
  | Connected
  | Failed
  | Reconnecting
  deriving DecidableEq, Repr

/-- `RTCSignalingState` of the webrtc crate, consumed by the monitor. -/
inductive RTCSignalingState where
  | Unspecified
  | Stable
  | HaveLocalOffer
  | HaveLocalPranswer
  | HaveRemoteOffer
  | HaveRemotePranswer
  | Closed
  deriving DecidableEq, Repr

/-- `RTCIceConnectionState` of the webrtc crate, consumed by the monitor. -/
inductive RTCIceConnectionState where
  | Unspecified
  | New
  | Checking
  | Connected
  | Completed
  | Disconnected
  | Failed
  | Closed
  deriving DecidableEq, Repr

/-- `RTCPeerConnectionState` of the webrtc crate, consumed by the monitor. -/
inductive RTCPeerConnectionState where
  | Unspecified
  | New
  | Connecting
  | Connected
  | Disconnected
  | Failed
  | Closed
  deriving DecidableEq, Repr

/-- `ConnectionStatus` from src/connection.rs. -/
structure ConnectionStatus where
  state : ConnectionState
  signaling_state : RTCSignalingState
  ice_state : RTCIceConnectionState
  peer_state : RTCPeerConnectionState
  last_error : Option String
  deriving DecidableEq, Repr

/-- `ConnectionStatus::default` (src/connection.rs:39-49). -/
def ConnectionStatus.default : ConnectionStatus :=
  { state := .Disconnected
    signaling_state := .Stable
    ice_state := .New
    peer_state := .New
    last_error := none }

/-- The watch-channel monitor holds one `ConnectionStatus`; each update method
is embedded as the pure transformation its `send_modify` closure applies. -/
def update_state (s : ConnectionState) (st : ConnectionStatus) : ConnectionStatus :=
  { st with state := s }

/-- `ConnectionMonitor::update_ice_state` (src/connection.rs:78-89): records
the ICE sub-state and derives the top-level state from it. -/
def update_ice_state (s : RTCIceConnectionState) (st : ConnectionStatus) : ConnectionStatus :=
  { st with
    ice_state := s
    state :=
      match s with
      | .Connected => ConnectionState.Connected
      | .Failed => ConnectionState.Failed
      | .Disconnected => ConnectionState.Disconnected
      | .Checking => ConnectionState.Connecting
      | _ => st.state }

/-- `ConnectionMonitor::set_error` (src/connection.rs:97-102): records the
message and forces the top-level state to `Failed`. -/
def set_error (e : String) (st : ConnectionStatus) : ConnectionStatus :=
  { st with last_error := some e, state := ConnectionState.Failed }

/-! ## Signaling message protocol (src/signaling.rs) -/

/-- `SignalingMessage` from src/signaling.rs:8-71, with the fields of each
variant in declaration order. -/
inductive SignalingMessage where
  | Join (room_id peer_id : String)
  | Disconnect (room_id peer_id : String)
  | PeerList (peers : List String)
  | Offer (room_id sdp from_peer to_peer : String)
  | Answer (room_id sdp from_peer to_peer : String)
  | IceCandidate (room_id candidate from_peer to_peer : String)
  | RequestPeerList
  | InitiateCall (peer_id room_id : String)
  | MediaError (error_type description peer_id : String)
  | EndCall (room_id peer_id : String)
  | CallRequest (room_id from_peer : String) (to_peers : List String)
  | CallResponse (room_id from_peer to_peer : String) (accepted : Bool)
  | Error (message : String)
  | ConnectionLost (peer_id : String)
  deriving DecidableEq, Repr

/-- The fragment of JSON values the wire protocol uses: strings, booleans,
arrays and objects (an object is a key-ordered field list). -/
inductive Json where
  | str (s : String)
  | bool (b : Bool)
  | arr (xs : List Json)
  | obj (fields : List (String × Json))
  deriving Repr

/-- First field with the given key in a JSON object, as serde reads it. -/
def getField : List (String × Json) → String → Option Json
  | [], _ => none
  | (k, v) :: rest, key => if k = key then some v else getField rest key

/-- Read a JSON value as a string. -/
def Json.getStr : Json → Option String
  | .str s => some s
  | _ => none

/-- Read a JSON value as a boolean. -/
def Json.getBool : Json → Option Bool
  | .bool b => some b
  | _ => none

/-- Read a list of JSON values as a list of strings. -/
def getStrList : List Json → Option (List String)
  | [] => some []
  | j :: js =>
    match j.getStr, getStrList js with
    | some s, some rest => some (s :: rest)
    | _, _ => none

/-- A required string field of a JSON object. -/
def reqStr (fields : List (String × Json)) (key : String) : Option String :=
  (getField fields key).bind Json.getStr

/-- A required boolean field of a JSON object. -/
def reqBool (fields : List (String × Json)) (key : String) : Option Bool :=
  (getField fields key).bind Json.getBool

/-- A required string-array field of a JSON object. -/
def reqStrList (fields : List (String × Json)) (key : String) : Option (List String) :=
  match getField fields key with
  | some (.arr xs) => getStrList xs
  | _ => none

/-- serde_json serialization of `SignalingMessage` under
`#[serde(tag = "message_type")]`: one JSON object per message, whose
`message_type` field is the variant name followed by the variant's fields. -/
def encode : SignalingMessage → Json
  | .Join room_id peer_id =>
      .obj [("message_type", .str "Join"), ("room_id", .str room_id),
            ("peer_id", .str peer_id)]
  | .Disconnect room_id peer_id =>
      .obj [("message_type", .str "Disconnect"), ("room_id", .str room_id),
            ("peer_id", .str peer_id)]
  | .PeerList peers =>
      .obj [("message_type", .str "PeerList"), ("peers", .arr (peers.map Json.str))]
  | .Offer room_id sdp from_peer to_peer =>
      .obj [("message_type", .str "Offer"), ("room_id", .str room_id),
            ("sdp", .str sdp), ("from_peer", .str from_peer), ("to_peer", .str to_peer)]
  | .Answer room_id sdp from_peer to_peer =>
      .obj [("message_type", .str "Answer"), ("room_id", .str room_id),
            ("sdp", .str sdp), ("from_peer", .str from_peer), ("to_peer", .str to_peer)]
  | .IceCandidate room_id candidate from_peer to_peer =>
      .obj [("message_type", .str "IceCandidate"), ("room_id", .str room_id),
            ("candidate", .str candidate), ("from_peer", .str from_peer),
            ("to_peer", .str to_peer)]
  | .RequestPeerList =>
      .obj [("message_type", .str "RequestPeerList")]
  | .InitiateCall peer_id room_id =>
      .obj [("message_type", .str "InitiateCall"), ("peer_id", .str peer_id),
            ("room_id", .str room_id)]
  | .MediaError error_type description peer_id =>
      .obj [("message_type", .str "MediaError"), ("error_type", .str error_type),
            ("description", .str description), ("peer_id", .str peer_id)]
  | .EndCall room_id peer_id =>
      .obj [("message_type", .str "EndCall"), ("room_id", .str room_id),
            ("peer_id", .str peer_id)]
  | .CallRequest room_id from_peer to_peers =>
      .obj [("message_type", .str "CallRequest"), ("room_id", .str room_id),
            ("from_peer", .str from_peer), ("to_peers", .arr (to_peers.map Json.str))]
  | .CallResponse room_id from_peer to_peer accepted =>
      .obj [("message_type", .str "CallResponse"), ("room_id", .str room_id),
            ("from_peer", .str from_peer), ("to_peer", .str to_peer),
            ("accepted", .bool accepted)]
  | .Error message =>
      .obj [("message_type", .str "Error"), ("message", .str message)]
  | .ConnectionLost peer_id =>
      .obj [("message_type", .str "ConnectionLost"), ("peer_id", .str peer_id)]

/-- serde_json deserialization of an internally tagged `SignalingMessage`:
read the `message_type` discriminator, then the required fields of that
variant (field order is irrelevant; unknown fields are ignored). -/
def decode (j : Json) : Option SignalingMessage :=
  match j with
  | .obj fields =>
    match getField fields "message_type" with
    | some (.str tag) =>
      if tag = "Join" then
        match reqStr fields "room_id", reqStr fields "peer_id" with
        | some r, some p => some (.Join r p)
        | _, _ => none
      else if tag = "Disconnect" then
        match reqStr fields "room_id", reqStr fields "peer_id" with
        | some r, some p => some (.Disconnect r p)
        | _, _ => none
      else if tag = "PeerList" then
        match reqStrList fields "peers" with
        | some ps => some (.PeerList ps)
        | none => none
      else if tag = "Offer" then
        match reqStr fields "room_id", reqStr fields "sdp",
              reqStr fields "from_peer", reqStr fields "to_peer" with
        | some r, some s, some f, some t => some (.Offer r s f t)
        | _, _, _, _ => none
      else if tag = "Answer" then
        match reqStr fields "room_id", reqStr fields "sdp",
              reqStr fields "from_peer", reqStr fields "to_peer" with
        | some r, some s, some f, some t => some (.Answer r s f t)
        | _, _, _, _ => none
      else if tag = "IceCandidate" then
        match reqStr fields "room_id", reqStr fields "candidate",
              reqStr fields "from_peer", reqStr fields "to_peer" with
        | some r, some c, some f, some t => some (.IceCandidate r c f t)
        | _, _, _, _ => none
      else if tag = "RequestPeerList" then
        some .RequestPeerList
      else if tag = "InitiateCall" then
        match reqStr fields "peer_id", reqStr fields "room_id" with
        | some p, some r => some (.InitiateCall p r)
        | _, _ => none
      else if tag = "MediaError" then
        match reqStr fields "error_type", reqStr fields "description",
              reqStr fields "peer_id" with
        | some e, some d, some p => some (.MediaError e d p)
        | _, _, _ => none
      else if tag = "EndCall" then
        match reqStr fields "room_id", reqStr fields "peer_id" with
        | some r, some p => some (.EndCall r p)
        | _, _ => none
      else if tag = "CallRequest" then
        match reqStr fields "room_id", reqStr fields "from_peer",
              reqStrList fields "to_peers" with
        | some r, some f, some ts => some (.CallRequest r f ts)
        | _, _, _ => none
      else if tag = "CallResponse" then
        match reqStr fields "room_id", reqStr fields "from_peer",
              reqStr fields "to_peer", reqBool fields "accepted" with
        | some r, some f, some t, some a => some (.CallResponse r f t a)
        | _, _, _, _ => none
      else if tag = "Error" then
        match reqStr fields "message" with
        | some m => some (.Error m)
        | none => none
      else if tag = "ConnectionLost" then
        match reqStr fields "peer_id" with
        | some p => some (.ConnectionLost p)
        | none => none
      else none
    | _ => none
  | _ => none

/-- The room ids a `SignalingMessage` carries, read off its fields. -/
def roomIds : SignalingMessage → List String
  | .Join room_id _ => [room_id]
  | .Disconnect room_id _ => [room_id]
  | .PeerList _ => []
  | .Offer room_id _ _ _ => [room_id]
  | .Answer room_id _ _ _ => [room_id]
  | .IceCandidate room_id _ _ _ => [room_id]
  | .RequestPeerList => []
  | .InitiateCall _ room_id => [room_id]
  | .MediaError _ _ _ => []
  | .EndCall room_id _ => [room_id]
  | .CallRequest room_id _ _ => [room_id]
  | .CallResponse room_id _ _ _ => [room_id]
  | .Error _ => []
  | .ConnectionLost _ => []

/-- The peer ids a `SignalingMessage` carries, read off its fields. -/
def peerIds : SignalingMessage → List String
  | .Join _ peer_id => [peer_id]
  | .Disconnect _ peer_id => [peer_id]
  | .PeerList peers => peers
  | .Offer _ _ from_peer to_peer => [from_peer, to_peer]
  | .Answer _ _ from_peer to_peer => [from_peer, to_peer]
  | .IceCandidate _ _ from_peer to_peer => [from_peer, to_peer]
  | .RequestPeerList => []
  | .InitiateCall peer_id _ => [peer_id]
  | .MediaError _ _ peer_id => [peer_id]
  | .EndCall _ peer_id => [peer_id]
  | .CallRequest _ from_peer to_peers => from_peer :: to_peers
  | .CallResponse _ from_peer to_peer _ => [from_peer, to_peer]
  | .Error _ => []
  | .ConnectionLost peer_id => [peer_id]

/-! ## Error taxonomy (src/main.rs usage of crate::error::Error) -/

/-- The error variants the orchestrator constructs and dispatches on
(`Error::Connection`, `Error::WebSocket`, `Error::WebRTC`, `Error::Audio`,
`Error::Signaling` in src/main.rs, `Error::Room` in src/room/state.rs). -/
inductive Error where
  | Connection (msg : String)
  | WebSocket (msg : String)
  | WebRTC (msg : String)
  | Audio (msg : String)
  | Signaling (msg : String)
  | Room (msg : String)
  deriving DecidableEq, Repr

/-! ## Room membership (src/room/state.rs) -/

/-- The media settings consulted by `Room::add_peer`: only
`max_participants` (the room capacity) matters to membership. -/
structure MediaSettings where
  max_participants : ℕ
  deriving DecidableEq, Repr

/-- A roster entry `(peer_id, connection_handle)`; the handle is opaque to
the membership logic and embedded as a natural number. -/
abbrev PeerConnection := String × ℕ

/-- `Room` from src/room/state.rs: roster, capacity via media settings, and
the set of connected peer pairs (the `HashSet` is embedded as a list). -/
structure Room where
  id : String
  peers : List PeerConnection
  media_settings : MediaSettings
  media_relays : List (String × ℕ)
  recording_enabled : Bool
  connected_pairs : List (String × String)
  deriving DecidableEq, Repr

/-- `Room::add_peer` (src/room/state.rs:13-19): fails with the room-full
error when the roster length is at or above capacity, otherwise pushes. -/
def add_peer (room : Room) (pc : PeerConnection) : Except Error Room :=
  if room.peers.length ≥ room.media_settings.max_participants then
    Except.error (Error.Room "Room is full")
  else
    Except.ok { room with peers := room.peers ++ [pc] }

/-- One `add_peer` call as a state action: on failure the room is left
unchanged (the Rust push is never executed on the error path). -/
def add_peer_action (room : Room) (pc : PeerConnection) : Room :=
  match add_peer room pc with
  | .ok r => r
  | .error _ => room

/-- `Room::remove_peer` (src/room/state.rs:21-25): retain roster entries
whose id differs, and retain only pairs referencing neither side of the
removed id. -/
def remove_peer (room : Room) (peer_id : String) : Room :=
  { room with
    peers := room.peers.filter (fun pc => pc.1 != peer_id)
    connected_pairs := room.connected_pairs.filter
      (fun pr => pr.1 != peer_id && pr.2 != peer_id) }

/-! ## Orchestrator state and reconnection (src/main.rs) -/

/-- Opaque handle standing for an established `SignalingClient`. -/
inductive SignalingClientHandle where
  | mk
  deriving DecidableEq, Repr

/-- Opaque handle standing for a constructed `WebRTCClient` media session. -/
inductive WebRTCClientHandle where
  | new
  deriving DecidableEq, Repr

/-- Opaque handle standing for a started `AudioCapture`. -/
inductive AudioCaptureHandle where
  | mk
  deriving DecidableEq, Repr

/-- `AppState` from src/main.rs:32-39. -/
structure AppState where
  signaling : Option SignalingClientHandle
  webrtc : Option WebRTCClientHandle
  audio_capture : Option AudioCaptureHandle
  peer_id : String
  room_id : String
  reconnect_attempts : ℕ
  deriving DecidableEq, Repr

/-- `MAX_RECONNECT_ATTEMPTS` (src/main.rs:29). -/
def MAX_RECONNECT_ATTEMPTS : ℕ := 5

/-- `RECONNECT_DELAY_MS` (src/main.rs:30). -/
def RECONNECT_DELAY_MS : ℕ := 1000

/-- Observable steps of one `AppState::reconnect` call. -/
inductive ReconnectEvent where
  | sleep (ms : ℕ)
  | connectAttempt (url : String)
  | sent (m : SignalingMessage)
  deriving DecidableEq, Repr

/-- Environment outcome of one relay reconnection attempt: the websocket
connect succeeds and the `Join` send succeeds, the connect fails, or the
connect succeeds but the send fails. -/
inductive AttemptOutcome where
  | ok
  | connectFail (e : String)
  | sendFail (e : String)
  deriving DecidableEq, Repr

/-- Result of `AppState::reconnect`: the mutated state (Rust takes
`&mut self`, so increments persist on the error paths), the error if any,
and the trace of waits, connection attempts and sends. -/
structure ReconnectResult where
  state : AppState
  error : Option Error
  events : List ReconnectEvent
  deriving DecidableEq, Repr

/-- `AppState::reconnect` (src/main.rs:42-72): refuse once the counter is at
the cap; otherwise increment the counter, wait the fixed delay, attempt the
websocket connection, and on success re-send `Join` for the current room and
peer identity, store the client and reset the counter to zero. -/
def reconnect (outcome : AttemptOutcome) (st : AppState) : ReconnectResult :=
  if st.reconnect_attempts ≥ MAX_RECONNECT_ATTEMPTS then
    { state := st
      error := some (Error.Connection "Max reconnection attempts reached")
      events := [] }
  else
    let st1 := { st with reconnect_attempts := st.reconnect_attempts + 1 }
    match outcome with
    | .ok =>
        { state := { st1 with signaling := some .mk, reconnect_attempts := 0 }
          error := none
          events := [.sleep RECONNECT_DELAY_MS, .connectAttempt "ws://127.0.0.1:8080",
                     .sent (.Join st.room_id st.peer_id)] }
    | .connectFail e =>
        { state := st1
          error := some (Error.Connection ("Reconnection failed: " ++ e))
          events := [.sleep RECONNECT_DELAY_MS, .connectAttempt "ws://127.0.0.1:8080"] }
    | .sendFail e =>
        { state := st1
          error := some (Error.Signaling ("Failed to send message: " ++ e))
          events := [.sleep RECONNECT_DELAY_MS, .connectAttempt "ws://127.0.0.1:8080"] }

/-- Number of actual connection attempts in a reconnect trace. -/
def countAttempts (evs : List ReconnectEvent) : ℕ :=
  evs.countP (fun e => match e with | .connectAttempt _ => true | _ => false)

/-- One failure episode: `n` consecutive `reconnect` calls whose connection
attempts all fail; returns the final state and the total number of actual
connection attempts made. -/
def failEpisode (e : String) : ℕ → AppState → AppState × ℕ
  | 0, st => (st, 0)
  | n + 1, st =>
      let r := reconnect (.connectFail e) st
      let rec' := failEpisode e n r.state
      (rec'.1, countAttempts r.events + rec'.2)

/-- `AppState::cleanup_call` (src/main.rs:95-105): drop the media session and
the audio capture, and send `EndCall` when a signaling client is present. -/
def cleanup_call (st : AppState) : AppState × List SignalingMessage :=
  let st' := { st with webrtc := none, audio_capture := none }
  match st.signaling with
  | some _ => (st', [SignalingMessage.EndCall st.room_id st.peer_id])
  | none => (st', [])

/-- `handle_signaling_message` (src/main.rs:447-511), embedded as a pure
transition returning the updated state and the messages sent to the relay.
The external media engine is abstracted: `engine_answer` stands for the
engine's computation of an SDP answer from an inbound offer, and the
engine/send operations are taken on their success paths. -/
def handle_signaling_message (engine_answer : String → String)
    (msg : SignalingMessage) (st : AppState) :
    Except Error (AppState × List SignalingMessage) :=
  match msg with
  | .Error message => Except.error (Error.Signaling message)
  | .ConnectionLost _ =>
      if st.webrtc.isSome then Except.ok (cleanup_call st) else Except.ok (st, [])
  | .CallRequest room_id from_peer _ =>
      let st1 := if st.webrtc.isNone then { st with webrtc := some .new } else st
      match st1.signaling with
      | some _ =>
          Except.ok (st1, [SignalingMessage.CallResponse room_id st.peer_id from_peer true])
      | none => Except.ok (st1, [])
  | .Offer room_id sdp from_peer _ =>
      match st.webrtc with
      | some _ =>
          match st.signaling with
          | some _ =>
              Except.ok
                (st, [SignalingMessage.Answer room_id (engine_answer sdp) st.peer_id from_peer])
          | none => Except.ok (st, [])
      | none => Except.ok (st, [])
  | .Answer _ _ _ _ => Except.ok (st, [])
  | .IceCandidate _ _ _ _ => Except.ok (st, [])
  | _ => Except.ok (st, [])

end WebRTCClient

namespace WebRTCClient

/-! ## Supporting lemmas -/

theorem getStrList_map_str (l : List String) :
    getStrList (l.map Json.str) = some l := by
  induction l with
  | nil => rfl
  | cons h t ih => simp [getStrList, Json.getStr, ih]

/-! ## Claims about metrics and the connection monitor -/

/-- C3: for all inputs, `calculate_quality_score` sets `quality_score` to the
sum of the three independent band scores, with the stated thresholds
(rtt: <150 gives 40, <300 gives 30, else 20; jitter: <30 gives 20, <50 gives
15, else 10; loss: <1 gives 40, <3 gives 30, <5 gives 20, else 10), so the
score is a pure function of the three inputs and always lies in [40,100]. -/
theorem quality_score_bands_and_bounds (q : ConnectionQuality) :
    (calculate_quality_score q).quality_score =
      rttScore q.round_trip_time + jitterScore q.jitter + lossScore q.packet_loss_rate
    ∧ rttScore q.round_trip_time =
        (if q.round_trip_time < 150 then 40 else if q.round_trip_time < 300 then 30 else 20)
    ∧ jitterScore q.jitter =
        (if q.jitter < 30 then 20 else if q.jitter < 50 then 15 else 10)
    ∧ lossScore q.packet_loss_rate =
        (if q.packet_loss_rate < 1 then 40 else if q.packet_loss_rate < 3 then 30
         else if q.packet_loss_rate < 5 then 20 else 10)
    ∧ 40 ≤ (calculate_quality_score q).quality_score
    ∧ (calculate_quality_score q).quality_score ≤ 100 := by
  have hr : 20 ≤ rttScore q.round_trip_time ∧ rttScore q.round_trip_time ≤ 40 := by
    unfold rttScore; split <;> [skip; split] <;> omega
  have hj : 10 ≤ jitterScore q.jitter ∧ jitterScore q.jitter ≤ 20 := by
    unfold jitterScore; split <;> [skip; split] <;> omega
  have hl : 10 ≤ lossScore q.packet_loss_rate ∧ lossScore q.packet_loss_rate ≤ 40 := by
    unfold lossScore; split <;> [skip; split] <;> [skip; skip; split] <;> omega
  refine ⟨rfl, rfl, rfl, rfl, ?_, ?_⟩ <;>
    simp only [calculate_quality_score] <;> omega

/-- C4 counterexample: at rtt=500, jitter=100, loss=10 the computed score is
40, not the 50 the claim asserts. -/
theorem quality_example_claim_false :
    ((calculate_quality_score
        { round_trip_time := 500, jitter := 100, packet_loss_rate := 10,
          audio_level := -127, bitrate := 0, quality_score := 100 }).quality_score = 50)
    = False := by
  norm_num [calculate_quality_score, rttScore, jitterScore, lossScore]

/-- C4 amended: rtt=100, jitter=10, loss=0.5 yields score 100, and
rtt=500, jitter=100, loss=10 yields score 40. -/
theorem quality_example_values :
    (calculate_quality_score
        { round_trip_time := 100, jitter := 10, packet_loss_rate := 1/2,
          audio_level := -127, bitrate := 0, quality_score := 0 }).quality_score = 100
    ∧ (calculate_quality_score
        { round_trip_time := 500, jitter := 100, packet_loss_rate := 10,
          audio_level := -127, bitrate := 0, quality_score := 100 }).quality_score = 40 := by
  constructor <;> norm_num [calculate_quality_score, rttScore, jitterScore, lossScore]

/-- C7: for every prior status, `set_error` forces the top-level state to
`Failed` and records the message in `last_error`. -/
theorem set_error_forces_failed (e : String) (st : ConnectionStatus) :
    (set_error e st).state = ConnectionState.Failed
    ∧ (set_error e st).last_error = some e := by
  exact ⟨rfl, rfl⟩

/-- C8: `update_ice_state` records the ICE sub-state, maps ICE Connected /
Failed / Disconnected / Checking to top-level Connected / Failed /
Disconnected / Connecting, and leaves the top-level state unchanged for every
other ICE sub-state. -/
theorem update_ice_state_derivation (s : RTCIceConnectionState) (st : ConnectionStatus) :
    (update_ice_state s st).ice_state = s
    ∧ (update_ice_state RTCIceConnectionState.Connected st).state = ConnectionState.Connected
    ∧ (update_ice_state RTCIceConnectionState.Failed st).state = ConnectionState.Failed
    ∧ (update_ice_state RTCIceConnectionState.Disconnected st).state = ConnectionState.Disconnected
    ∧ (update_ice_state RTCIceConnectionState.Checking st).state = ConnectionState.Connecting
    ∧ (update_ice_state RTCIceConnectionState.New st).state = st.state
    ∧ (update_ice_state RTCIceConnectionState.Completed st).state = st.state
    ∧ (update_ice_state RTCIceConnectionState.Closed st).state = st.state
    ∧ (update_ice_state RTCIceConnectionState.Unspecified st).state = st.state
    ∧ (update_ice_state s st).signaling_state = st.signaling_state
    ∧ (update_ice_state s st).peer_state = st.peer_state
    ∧ (update_ice_state s st).last_error = st.last_error := by
  refine ⟨rfl, rfl, rfl, rfl, rfl, rfl, rfl, rfl, rfl, rfl, rfl, rfl⟩

/-! ## Claims about the signaling message protocol -/

/-- C5: for every `SignalingMessage` value, decoding the JSON encoding
(tagged by the `message_type` discriminator) reproduces the message
exactly. -/
theorem decode_encode_roundtrip (m : SignalingMessage) :
    decode (encode m) = some m := by
  cases m <;>
    simp [encode, decode, getField, reqStr, reqBool, reqStrList,
          Json.getStr, Json.getBool, getStrList_map_str]

/-- C6 counterexample: `ConnectionLost` references a peer but carries no
room id, so the claim that every room- or peer-referencing variant carries
both ids fails on it. -/
theorem ids_explicit_claim_false :
    ¬ ((roomIds (SignalingMessage.ConnectionLost "p2") ≠ []
          ∨ peerIds (SignalingMessage.ConnectionLost "p2") ≠ [])
        → (roomIds (SignalingMessage.ConnectionLost "p2") ≠ []
            ∧ peerIds (SignalingMessage.ConnectionLost "p2") ≠ [])) := by
  decide

/-- C6 amended: every variant that carries a room id also carries a peer id,
and the only variants that reference peers without carrying a room id are
`PeerList`, `MediaError` and `ConnectionLost`. -/
theorem ids_explicit_amended (m : SignalingMessage) :
    (roomIds m ≠ [] → peerIds m ≠ [])
    ∧ (peerIds m ≠ [] → roomIds m ≠ []
        ∨ (∃ peers, m = SignalingMessage.PeerList peers)
        ∨ (∃ e d p, m = SignalingMessage.MediaError e d p)
        ∨ (∃ p, m = SignalingMessage.ConnectionLost p)) := by
  cases m <;> simp [roomIds, peerIds]

/-- C6 amended witness: `Join` carries a room id, so it carries a peer id. -/
theorem ids_explicit_amended_witness :
    peerIds (SignalingMessage.Join "r1" "u1") ≠ [] :=
  (ids_explicit_amended (SignalingMessage.Join "r1" "u1")).1 (by decide)

/-! ## Claims about room membership -/

theorem foldl_add_peer_le (pcs : List PeerConnection) (room : Room)
    (h : room.peers.length ≤ room.media_settings.max_participants) :
    (pcs.foldl add_peer_action room).peers.length ≤ room.media_settings.max_participants := by
  induction pcs generalizing room with
  | nil => exact h
  | cons pc rest ih =>
    rw [List.foldl_cons]
    by_cases hc : room.peers.length ≥ room.media_settings.max_participants
    · have hstep : add_peer_action room pc = room := by
        simp [add_peer_action, add_peer, hc]
      rw [hstep]
      exact ih room h
    · have hstep : add_peer_action room pc = { room with peers := room.peers ++ [pc] } := by
        simp [add_peer_action, add_peer, hc]
      rw [hstep]
      have := ih { room with peers := room.peers ++ [pc] } (by simp; omega)
      simpa using this

/-- C9: starting from a roster within capacity, `add_peer` fails with the
room-full error exactly when the roster size equals the capacity, otherwise
appends the peer and succeeds; and after any sequence of `add_peer` calls the
roster length still never exceeds the capacity. -/
theorem add_peer_capacity (room : Room) (pc : PeerConnection)
    (h : room.peers.length ≤ room.media_settings.max_participants) :
    (add_peer room pc = Except.error (Error.Room "Room is full")
      ↔ room.peers.length = room.media_settings.max_participants)
    ∧ (room.peers.length < room.media_settings.max_participants →
        add_peer room pc = Except.ok { room with peers := room.peers ++ [pc] })
    ∧ ∀ pcs : List PeerConnection,
        (pcs.foldl add_peer_action room).peers.length ≤ room.media_settings.max_participants := by
  refine ⟨?_, ?_, fun pcs => foldl_add_peer_le pcs room h⟩
  · constructor
    · intro he
      by_contra hne
      have hlt : room.peers.length < room.media_settings.max_participants := by omega
      simp [add_peer, Nat.not_le.mpr hlt] at he
    · intro heq
      simp [add_peer, heq]
  · intro hlt
    simp [add_peer, Nat.not_le.mpr hlt]

/-- C9 witness: a one-seat-free room accepts one peer, rejects at capacity,
and a burst of adds never pushes the roster past capacity. -/
theorem add_peer_capacity_witness :
    (([(("b" : String), (1 : ℕ)), (("c" : String), (2 : ℕ)),
        (("d" : String), (3 : ℕ))].foldl add_peer_action
        { id := "r1", peers := [("a", 0)], media_settings := { max_participants := 2 },
          media_relays := [], recording_enabled := false,
          connected_pairs := [] }).peers.length ≤ 2) :=
  (add_peer_capacity
    { id := "r1", peers := [("a", 0)], media_settings := { max_participants := 2 },
      media_relays := [], recording_enabled := false, connected_pairs := [] }
    ("b", 1) (by decide)).2.2 [("b", 1), ("c", 2), ("d", 3)]

/-- C10: `remove_peer` removes every roster entry with the removed id and
leaves no connected pair referencing it, in one atomic state transition. -/
theorem remove_peer_purges (room : Room) (p : String) :
    (remove_peer room p).peers.all (fun pc => pc.1 != p) = true
    ∧ (remove_peer room p).connected_pairs.all
        (fun pr => pr.1 != p && pr.2 != p) = true
    ∧ (remove_peer room p).id = room.id := by
  refine ⟨?_, ?_, rfl⟩
  · rw [List.all_eq_true]
    intro pc hpc
    exact (List.mem_filter.mp hpc).2
  · rw [List.all_eq_true]
    intro pr hpr
    exact (List.mem_filter.mp hpr).2

/-! ## Claims about the orchestrator -/

/-- C1 counterexample: handling an inbound `CallRequest` with no active media
session creates the media session and replies `CallResponse{accepted:true}`,
but leaves `audio_capture` at `none` — local capture is not attached, contrary
to the claim. -/
theorem call_request_no_capture_cex :
    handle_signaling_message id (SignalingMessage.CallRequest "r1" "u2" ["me"])
        { signaling := some .mk, webrtc := none, audio_capture := none,
          peer_id := "me", room_id := "r1", reconnect_attempts := 0 }
      = Except.ok
          ({ signaling := some .mk, webrtc := some .new, audio_capture := none,
             peer_id := "me", room_id := "r1", reconnect_attempts := 0 },
           [SignalingMessage.CallResponse "r1" "me" "u2" true]) := by
  rfl

/-- C1 amended: on an inbound `CallRequest`, if no media session is active
the handler creates one (media session = Some) but does not attach local
audio capture, and replies `CallResponse{accepted:true}` whenever a signaling
client is present; if a media session already exists it only replies and
leaves the state unchanged. -/
theorem call_request_amended (ans : String → String) (st : AppState)
    (r f : String) (ts : List String) :
    (st.webrtc = none →
      handle_signaling_message ans (SignalingMessage.CallRequest r f ts) st =
        Except.ok ({ st with webrtc := some .new },
          match st.signaling with
          | some _ => [SignalingMessage.CallResponse r st.peer_id f true]
          | none => []))
    ∧ (∀ w, st.webrtc = some w →
      handle_signaling_message ans (SignalingMessage.CallRequest r f ts) st =
        Except.ok (st,
          match st.signaling with
          | some _ => [SignalingMessage.CallResponse r st.peer_id f true]
          | none => [])) := by
  constructor
  · intro hw
    cases hs : st.signaling <;>
      simp [handle_signaling_message, hw, hs]
  · intro w hw
    cases hs : st.signaling <;>
      simp [handle_signaling_message, hw, hs]

/-- C1 witness: with an existing media session the handler replies and the
state is unchanged. -/
theorem call_request_amended_witness :
    handle_signaling_message id (SignalingMessage.CallRequest "r2" "u5" ["u9"])
        { signaling := some .mk, webrtc := some .new, audio_capture := some .mk,
          peer_id := "u9", room_id := "r2", reconnect_attempts := 0 }
      = Except.ok
          ({ signaling := some .mk, webrtc := some .new, audio_capture := some .mk,
             peer_id := "u9", room_id := "r2", reconnect_attempts := 0 },
           [SignalingMessage.CallResponse "r2" "u9" "u5" true]) :=
  (call_request_amended id
    { signaling := some .mk, webrtc := some .new, audio_capture := some .mk,
      peer_id := "u9", room_id := "r2", reconnect_attempts := 0 }
    "r2" "u5" ["u9"]).2 .new rfl

theorem failEpisode_counts (e : String) (n : ℕ) (st : AppState) :
    (5 ≤ st.reconnect_attempts →
      (failEpisode e n st).1.reconnect_attempts = st.reconnect_attempts
      ∧ (failEpisode e n st).2 = 0)
    ∧ (st.reconnect_attempts < 5 →
      (failEpisode e n st).1.reconnect_attempts = min (st.reconnect_attempts + n) 5
      ∧ (failEpisode e n st).2 = min (st.reconnect_attempts + n) 5 - st.reconnect_attempts) := by
  induction n generalizing st with
  | zero =>
    refine ⟨fun _ => ⟨rfl, rfl⟩, fun h => ⟨?_, ?_⟩⟩
    · show st.reconnect_attempts = _
      omega
    · show 0 = _
      omega
  | succ n ih =>
    by_cases h5 : 5 ≤ st.reconnect_attempts
    · have hr : reconnect (.connectFail e) st =
          { state := st,
            error := some (Error.Connection "Max reconnection attempts reached"),
            events := [] } := by
        simp [reconnect, MAX_RECONNECT_ATTEMPTS, h5]
      refine ⟨fun _ => ?_, fun h => absurd h (by omega)⟩
      have hrec := (ih st).1 h5
      simp only [failEpisode, hr]
      exact ⟨hrec.1, by simp [countAttempts, hrec.2]⟩
    · have hlt : st.reconnect_attempts < 5 := by omega
      set st1 : AppState := { st with reconnect_attempts := st.reconnect_attempts + 1 }
        with hst1
      have hr : reconnect (.connectFail e) st =
          { state := st1,
            error := some (Error.Connection ("Reconnection failed: " ++ e)),
            events := [.sleep RECONNECT_DELAY_MS,
                       .connectAttempt "ws://127.0.0.1:8080"] } := by
        simp [reconnect, MAX_RECONNECT_ATTEMPTS, h5, hst1]
      have hst1c : st1.reconnect_attempts = st.reconnect_attempts + 1 := rfl
      have hca : countAttempts [ReconnectEvent.sleep RECONNECT_DELAY_MS,
          ReconnectEvent.connectAttempt "ws://127.0.0.1:8080"] = 1 := rfl
      refine ⟨fun h => absurd h (by omega), fun _ => ?_⟩
      simp only [failEpisode, hr]
      by_cases h5' : 5 ≤ st1.reconnect_attempts
      · have hrec := (ih st1).1 h5'
        rw [hst1c] at hrec
        rw [hst1c] at h5'
        exact ⟨by rw [hrec.1]; omega, by rw [hca, hrec.2]; omega⟩
      · have hrec := (ih st1).2 (by omega)
        rw [hst1c] at hrec
        exact ⟨by rw [hrec.1]; omega, by rw [hca, hrec.2]; omega⟩

/-- C2: the reconnection policy is a hard cap of 5: at the cap `reconnect`
returns the terminal max-attempts error without attempting; below the cap
every attempt first waits the fixed 1000 ms delay and then tries the relay;
a successful attempt re-sends `Join` for the current room and peer identity
and resets the counter to zero; and a failure episode started at counter 0
makes exactly `min n 5` actual connection attempts over `n` calls, hence
never more than 5. -/
theorem reconnect_policy (st : AppState) (o : AttemptOutcome) (e : String) (n : ℕ) :
    (MAX_RECONNECT_ATTEMPTS = 5)
    ∧ (5 ≤ st.reconnect_attempts →
        reconnect o st =
          { state := st,
            error := some (Error.Connection "Max reconnection attempts reached"),
            events := [] })
    ∧ (st.reconnect_attempts < 5 →
        ∃ rest, (reconnect o st).events =
          ReconnectEvent.sleep 1000 ::
            ReconnectEvent.connectAttempt "ws://127.0.0.1:8080" :: rest)
    ∧ (st.reconnect_attempts < 5 →
        (reconnect .ok st).state.reconnect_attempts = 0
        ∧ (reconnect .ok st).error = none
        ∧ ReconnectEvent.sent (SignalingMessage.Join st.room_id st.peer_id)
            ∈ (reconnect .ok st).events
        ∧ (reconnect .ok st).state.signaling = some .mk)
    ∧ (st.reconnect_attempts = 0 → (failEpisode e n st).2 = min n 5) := by
  refine ⟨rfl, ?_, ?_, ?_, ?_⟩
  · intro h5
    simp [reconnect, MAX_RECONNECT_ATTEMPTS, h5]
  · intro hlt
    have h5 : ¬ st.reconnect_attempts ≥ MAX_RECONNECT_ATTEMPTS := by
      simp [MAX_RECONNECT_ATTEMPTS]; omega
    cases o <;> simp [reconnect, h5, RECONNECT_DELAY_MS]
  · intro hlt
    have h5 : ¬ st.reconnect_attempts ≥ MAX_RECONNECT_ATTEMPTS := by
      simp [MAX_RECONNECT_ATTEMPTS]; omega
    simp [reconnect, h5]
  · intro h0
    have := (failEpisode_counts e n st).2 (by omega)
    rw [this.2, h0]
    omega

/-- C2 witness: from a fresh counter, seven consecutive failing calls make
exactly five actual attempts, and one successful call resets the counter. -/
theorem reconnect_policy_witness :
    (failEpisode "refused" 7
        { signaling := none, webrtc := none, audio_capture := none,
          peer_id := "u1", room_id := "r1", reconnect_attempts := 0 }).2 = min 7 5
    ∧ (reconnect .ok
        { signaling := none, webrtc := none, audio_capture := none,
          peer_id := "u1", room_id := "r1",
          reconnect_attempts := 0 }).state.reconnect_attempts = 0 :=
  ⟨(reconnect_policy
      { signaling := none, webrtc := none, audio_capture := none,
        peer_id := "u1", room_id := "r1", reconnect_attempts := 0 }
      .ok "refused" 7).2.2.2.2 rfl,
   ((reconnect_policy
      { signaling := none, webrtc := none, audio_capture := none,
        peer_id := "u1", room_id := "r1", reconnect_attempts := 0 }
      .ok "refused" 7).2.2.2.1 (by decide)).1⟩

end WebRTCClient
